import Mathlib

/-!
Shallow embedding of `predict_location_NLG.py` (TalkTheWalk language-generator
training script): the vocabulary index allocator, the trajectory segmenter of
`TrainLanguageGenerator.load_data`, the batch assembler `create_batch`, and the
early-stopping logic of `TrainLanguageGenerator.train`.  External collaborators
(`step_aware`, `get_landmarks_2d`, feature loaders, `Dictionary.encode`,
`sklearn.utils.shuffle`) are taken as explicit function parameters.
-/

namespace TTW

/-- Embeds `get_action` (predict_location_NLG.py lines 25-29): maps the three
recognized navigation messages to their action ints, `none` otherwise. -/
def get_action (msg : String) : Option Nat :=
  if msg = "ACTION:TURNLEFT" then some 1
  else if msg = "ACTION:TURNRIGHT" then some 2
  else if msg = "ACTION:FORWARD" then some 3
  else none

/-- Embeds `ActionObservationDictionary` (lines 44-54): the four special
indices computed in `__init__` from the landmark list and action list. -/
structure ActionObservationDictionary where
  pad_idx : Nat
  start_idx : Nat
  end_idx : Nat
  unk_idx : Nat
deriving DecidableEq, Repr

/-- Embeds the body of `ActionObservationDictionary.__init__`:
`pad = len(landmarks)+len(actions)`, `start = pad+1`, `end = start+1`,
`unk = end+1`.  The element types of the two lists are irrelevant. -/
def mkAODict {α β : Type} (landmarks : List α) (actions : List β) :
    ActionObservationDictionary :=
  let pad := landmarks.length + actions.length
  { pad_idx := pad
    start_idx := pad + 1
    end_idx := pad + 2
    unk_idx := pad + 3 }

/-- Embeds Python construction of `ActionObservationDictionary` where either
argument may be an unknown value (`None`): `len(None)` raises `TypeError`, so
construction fails exactly when an argument is unknown; a present (possibly
empty) list always succeeds, since `len` of a list never fails and the body
performs no size check. -/
def mkAODictChecked {α β : Type} (landmarks : Option (List α))
    (actions : Option (List β)) : Option ActionObservationDictionary :=
  match landmarks, actions with
  | some ls, some acts => some (mkAODict ls acts)
  | _, _ => none

/-- A cell of a trajectory or of the assembled source grid: the Python code
stores plain ints (action tokens, special indices, the literal `0` fill) and
observation-bundle dicts in the same list. -/
inductive Cell (Obs : Type) where
  | int : Nat → Cell Obs
  | obs : Obs → Cell Obs
deriving DecidableEq, Repr

/-- Embeds `collections.deque(maxlen=cap)` append: when the deque is at
capacity the leftmost element is discarded.  `cap = none` is an unbounded
deque (`self.contextlen` is `None` when `--num-steps` is negative). -/
def dequeAppend {α : Type} (cap : Option Nat) (buf : List α) (x : α) :
    List α :=
  match cap with
  | none => buf ++ [x]
  | some k =>
    let b := buf ++ [x]
    if k < b.length then b.drop (b.length - k) else b

/-- External collaborators of `load_data`, fixed per dialogue config:
`step_aware` (boundaries folded in), `get_landmarks_2d` (neighborhood and
boundaries folded in), the feature-loader loop that builds `obs_emb`
(folded into one function of the location), and the target-text tokenizer
of the external `Dictionary` together with its end-token id. -/
structure Collab (Loc Lmk Obs : Type) where
  stepAware : Nat → Loc → Loc
  getLandmarks2d : Loc → Lmk × Loc
  mkObs : Loc → Obs
  tokenize : String → List Nat
  trgEnd : Nat

/-- Modelled from the spec: `Dictionary.encode(text, include_end=True)` lives
in `dict.py`, which is not under src/; per the spec it encodes the text
through the external vocabulary "with a forced trailing end token", so it is
modelled as the tokenizer's output with the end id appended. -/
def Collab.encode {Loc Lmk Obs : Type} (C : Collab Loc Lmk Obs)
    (txt : String) : List Nat :=
  C.tokenize txt ++ [C.trgEnd]

/-- Mutable per-dialogue state of the `load_data` loop: the current location
`loc` and the bounded window `act_obs_memory`. -/
structure SegState (Loc Obs : Type) where
  loc : Loc
  memory : List (Cell Obs)
deriving Repr

/-- The four parallel output arrays accumulated by `load_data`. -/
structure SegAcc (Loc Lmk Obs : Type) where
  Xs : List (List (Cell Obs))
  tourist_locs : List Loc
  landmarks : List Lmk
  ys : List (List Nat)
deriving Repr

/-- One dialogue turn: `msg['id'] == 'Tourist'` and `msg['text']`. -/
structure Msg where
  fromTourist : Bool
  text : String
deriving DecidableEq, Repr

/-- Embeds one iteration of the `for msg in config['dialog']` loop of
`load_data` (lines 241-278).  Non-tourist turns do nothing.  A tourist turn
whose text `get_action` recognizes moves via `step_aware`, appends the action
int to the window, and — only when the action int equals 2 — also appends the
landmark set and the observation bundle at the new location.  A free-text
tourist turn emits one example: observation bundle at the current location
appended to the window, then `Xs` gets the window plus the source end index,
and the window is cleared. -/
def processMsg {Loc Lmk Obs : Type} (C : Collab Loc Lmk Obs)
    (cap : Option Nat) (endIdx : Nat) (st : SegState Loc Obs)
    (acc : SegAcc Loc Lmk Obs) (msg : Msg) :
    SegState Loc Obs × SegAcc Loc Lmk Obs :=
  if msg.fromTourist then
    match get_action msg.text with
    | none =>
      let y := C.encode msg.text
      let lsLoc := C.getLandmarks2d st.loc
      let obs := C.mkObs st.loc
      let mem1 := dequeAppend cap st.memory (Cell.obs obs)
      ({ loc := st.loc, memory := [] },
       { Xs := acc.Xs ++ [mem1 ++ [Cell.int endIdx]]
         tourist_locs := acc.tourist_locs ++ [lsLoc.2]
         landmarks := acc.landmarks ++ [lsLoc.1]
         ys := acc.ys ++ [y] })
    | some act =>
      let loc1 := C.stepAware act st.loc
      let mem1 := dequeAppend cap st.memory (Cell.int act)
      if act = 2 then
        let lsLoc := C.getLandmarks2d loc1
        let obs := C.mkObs loc1
        ({ loc := loc1, memory := dequeAppend cap mem1 (Cell.obs obs) },
         { acc with landmarks := acc.landmarks ++ [lsLoc.1] })
      else
        ({ loc := loc1, memory := mem1 }, acc)
  else (st, acc)

/-- Embeds processing of one dialogue config: fold `processMsg` over the
turns, starting from the config's start location and a fresh empty window. -/
def processDialogue {Loc Lmk Obs : Type} (C : Collab Loc Lmk Obs)
    (cap : Option Nat) (endIdx : Nat) (startLoc : Loc) (msgs : List Msg)
    (acc : SegAcc Loc Lmk Obs) : SegState Loc Obs × SegAcc Loc Lmk Obs :=
  msgs.foldl (fun p msg => processMsg C cap endIdx p.1 p.2 msg)
    ({ loc := startLoc, memory := [] }, acc)

/-! ### Batch assembler: `TrainLanguageGenerator.create_batch` (lines 290-333) -/

/-- Embeds Python `max(list)` on the nonempty length lists of `create_batch`
(`max` raises on an empty list; claims about batches assume N ≥ 1, under
which this fold is the true maximum). -/
def maxList (l : List Nat) : Nat := l.foldr max 0

/-- Embeds the index permutation of
`torch.sort(torch.LongTensor(seq_lens), descending=True)`: the indices
`0..N-1` arranged so the corresponding lengths are non-increasing.
`torch.sort` is called without `stable=True`, so PyTorch leaves the order of
equal elements unspecified; this embedding instantiates the sort with
insertion sort, one behavior the contract permits. -/
def sortIndicesDesc (lens : List Nat) : List Nat :=
  List.insertionSort (fun i j => lens.getD j 0 ≤ lens.getD i 0)
    (List.range lens.length)

/-- One row of the pre-sort `X_batch` (lines 296-300): initialized with the
int literal `0`, then positions `j < len(seq)` overwritten with `seq[j]`. -/
def srcRow {Obs : Type} (max_X_len : Nat) (seq : List (Cell Obs)) :
    List (Cell Obs) :=
  (List.range max_X_len).map (fun j =>
    if j < seq.length then seq.getD j (Cell.int 0) else Cell.int 0)

/-- The pre-sort source grid `X_batch` of shape N × max_X_len. -/
def X_batchOf {Obs : Type} (max_X_len : Nat) (Xs : List (List (Cell Obs))) :
    List (List (Cell Obs)) :=
  Xs.map (srcRow max_X_len)

/-- One mask row: `mask[i, :len] = 1.0` on a zeroed float row of width
`max_X_len` (the float values are exactly 0.0 and 1.0, modelled as 0/1). -/
def maskRow (max_X_len len : Nat) : List Nat :=
  (List.range max_X_len).map (fun j => if j < len then 1 else 0)

/-- The pre-sort mask of shape N × max_X_len (lines 297-301). -/
def maskOf {Obs : Type} (max_X_len : Nat) (Xs : List (List (Cell Obs))) :
    List (List Nat) :=
  Xs.map (fun seq => maskRow max_X_len seq.length)

/-- One row of the pre-sort `y_batch` (lines 302-304): filled with the
target dictionary's pad id, then positions `j < len(seq)` overwritten. -/
def trgRow (max_y_len padTrg : Nat) (seq : List Nat) : List Nat :=
  (List.range max_y_len).map (fun j =>
    if j < seq.length then seq.getD j 0 else padTrg)

/-- The pre-sort target grid `y_batch` of shape N × max_y_len. -/
def y_batchOf (max_y_len padTrg : Nat) (ys : List (List Nat)) :
    List (List Nat) :=
  ys.map (trgRow max_y_len padTrg)

/-- Applies an index permutation (given as the list `p` of source indices)
to a list of rows: row `i` of the result is row `p_i` of the input. -/
def applyPerm {α : Type} (dflt : α) (p : List Nat) (l : List α) : List α :=
  p.map (fun i => l.getD i dflt)

/-- The tuple returned by `create_batch`, in source order:
`(sorted_X_batch, (sorted_mask, sorted_tourist_loc_batch, sorted_y_batch),
sorted(seq_lens, reverse=True), sorted_y_lens, max_y_len)`. -/
structure BatchOut (Loc Obs : Type) where
  sorted_X_batch : List (List (Cell Obs))
  sorted_mask : List (List Nat)
  sorted_tourist_loc_batch : List Loc
  sorted_y_batch : List (List Nat)
  x_lens : List Nat
  sorted_y_lens : List Nat
  max_y_len : Nat
deriving Repr

/-- Embeds `create_batch(Xs, tourist_locs, ys)`.  `padSrc` is
`self.action_obs_dict.tok2i[PAD_TOKEN]` and `padTrg` is
`self.dictionary[PAD_TOKEN]`.  The loop `for idx in sorted_indices` copies
whole rows: `sorted_X_batch[i][:] = X_batch[idx][:]` replaces the
pad-initialized row (the `getD` default here) entirely with the 0-filled
pre-sort row; the mask is recomputed from the sorted lengths; and
`sorted_y_lens.append(y_lens[i])` uses the loop position `i`, not `idx`. -/
def create_batch {Loc Obs : Type} (dfltLoc : Loc) (padSrc padTrg : Nat)
    (Xs : List (List (Cell Obs))) (tourist_locs : List Loc)
    (ys : List (List Nat)) : BatchOut Loc Obs :=
  let seq_lens := Xs.map List.length
  let y_lens := ys.map List.length
  let max_y_len := maxList y_lens
  let max_X_len := maxList seq_lens
  let X_batch := X_batchOf max_X_len Xs
  let y_batch := y_batchOf max_y_len padTrg ys
  let sorted_indices := sortIndicesDesc seq_lens
  let sorted_seq_lens := sorted_indices.map (fun idx => seq_lens.getD idx 0)
  { sorted_X_batch := applyPerm (List.replicate max_X_len (Cell.int padSrc))
      sorted_indices X_batch
    sorted_mask := sorted_seq_lens.map (fun len => maskRow max_X_len len)
    sorted_tourist_loc_batch := applyPerm dfltLoc sorted_indices tourist_locs
    sorted_y_batch := applyPerm (List.replicate max_y_len 0)
      sorted_indices y_batch
    x_lens := List.insertionSort (fun a b => b ≤ a) seq_lens
    sorted_y_lens := sorted_indices.enum.map (fun p => y_lens.getD p.1 0)
    max_y_len := max_y_len }

/-! ### Training loop controller: early stopping in `train` (lines 342-395) -/

/-- Early-stopping state carried across epochs: `best_valid` (initially
`float('inf')`, modelled as `none`) and the `valid_patience` counter. -/
structure ESState where
  best : Option ℚ
  patience : Nat
deriving DecidableEq, Repr

/-- Embeds `valid_loss < best_valid` where `best_valid` starts at
`float('inf')`. -/
def improved (l : ℚ) (best : Option ℚ) : Bool :=
  match best with
  | none => true
  | some b => decide (l < b)

/-- Outcome of the end-of-epoch check: either training continues with an
updated state, or the controller stops; `saved` models the `save_model()`
call and `testReported` the `eval_test()` call made just before `return`. -/
inductive EpochStep where
  | cont : ESState → EpochStep
  | done : (saved : Bool) → (testReported : Bool) → EpochStep
deriving DecidableEq, Repr

/-- Embeds lines 383-395 of `train`: on strict improvement record the new
best and reset the counter; otherwise increment the counter and, exactly
when it equals the configured `valid_patience`, save the model, evaluate the
test split, and return. -/
def epochCheck (thr : Nat) (s : ESState) (l : ℚ) : EpochStep :=
  if improved l s.best then EpochStep.cont { best := some l, patience := 0 }
  else
    let p := s.patience + 1
    if p = thr then EpochStep.done true true
    else EpochStep.cont { best := s.best, patience := p }

/-- Runs `epochCheck` over a list of per-epoch validation losses; returns
the 1-based position of the loss at whose processing the controller stopped,
or `none` if it never stopped early. -/
def stopsAfter (thr : Nat) (s : ESState) : List ℚ → Option Nat
  | [] => none
  | l :: ls =>
    match epochCheck thr s l with
    | EpochStep.done _ _ => some 1
    | EpochStep.cont s1 => (stopsAfter thr s1 ls).map (· + 1)

/-! ### Per-epoch dataset shuffle in `train` (lines 340-349) -/

/-- The four parallel arrays unpacked from `self.train_data`. -/
structure TrainData (A B C D : Type) where
  Xs : List A
  tourist_locs : List B
  landmarks : List C
  ys : List D
deriving Repr

/-- Embeds one epoch's `Xs, tourist_locs, ys = shuffle(Xs, tourist_locs, ys)`
(sklearn shuffles its arguments with one shared random permutation `p`);
`landmarks` is not among the arguments and is left untouched. -/
def epochShuffle {A B C D : Type} (da : A) (db : B) (dd : D) (p : List Nat)
    (d : TrainData A B C D) : TrainData A B C D :=
  { Xs := applyPerm da p d.Xs
    tourist_locs := applyPerm db p d.tourist_locs
    landmarks := d.landmarks
    ys := applyPerm dd p d.ys }

/-! ### Shared helper lemmas -/

/-- `getD` through a `map`, at an in-bounds index. -/
theorem getD_map_of_lt {α β : Type} (f : α → β) (l : List α) (i : Nat)
    (d : β) (d' : α) (h : i < l.length) :
    (l.map f).getD i d = f (l.getD i d') := by
  rw [List.getD_eq_getElem _ _ (by simpa using h), List.getElem_map,
    List.getD_eq_getElem _ _ h]

/-- Reading every position of a list through `getD` reproduces the list. -/
theorem range_map_getD {α : Type} (d : α) (l : List α) :
    (List.range l.length).map (fun i => l.getD i d) = l := by
  apply List.ext_getElem
  · simp
  · intro i h1 h2
    simp only [List.getElem_map, List.getElem_range]
    exact List.getD_eq_getElem l d h2

/-- The sort-index list is a permutation of the row indices. -/
theorem sortIndicesDesc_perm (lens : List Nat) :
    (sortIndicesDesc lens).Perm (List.range lens.length) :=
  List.perm_insertionSort _ _

/-- Every sort index is an in-range row index. -/
theorem sortIndicesDesc_mem_lt (lens : List Nat) {i : Nat}
    (h : i ∈ sortIndicesDesc lens) : i < lens.length := by
  have hm := (sortIndicesDesc_perm lens).mem_iff.mp h
  simpa using hm

/-- Sorting the indices preserves their count. -/
theorem sortIndicesDesc_length (lens : List Nat) :
    (sortIndicesDesc lens).length = lens.length := by
  simpa using (sortIndicesDesc_perm lens).length_eq

/-! ### Claim theorems -/

/-- C5: the allocator assigns `pad = L + A`, `start = pad + 1`,
`end = start + 1`, `unknown = end + 1`, so the four special indices are
pairwise distinct and contiguous; for L = 11 and A = 3 it yields
pad = 14, start = 15, end = 16, unknown = 17. -/
theorem aodict_special_indices :
    (∀ (α β : Type) (ls : List α) (acts : List β),
      (mkAODict ls acts).pad_idx = ls.length + acts.length ∧
      (mkAODict ls acts).start_idx = (mkAODict ls acts).pad_idx + 1 ∧
      (mkAODict ls acts).end_idx = (mkAODict ls acts).start_idx + 1 ∧
      (mkAODict ls acts).unk_idx = (mkAODict ls acts).end_idx + 1 ∧
      (mkAODict ls acts).pad_idx ≠ (mkAODict ls acts).start_idx ∧
      (mkAODict ls acts).pad_idx ≠ (mkAODict ls acts).end_idx ∧
      (mkAODict ls acts).pad_idx ≠ (mkAODict ls acts).unk_idx ∧
      (mkAODict ls acts).start_idx ≠ (mkAODict ls acts).end_idx ∧
      (mkAODict ls acts).start_idx ≠ (mkAODict ls acts).unk_idx ∧
      (mkAODict ls acts).end_idx ≠ (mkAODict ls acts).unk_idx) ∧
    mkAODict (List.range 11) (List.range 3) =
      { pad_idx := 14, start_idx := 15, end_idx := 16, unk_idx := 17 } := by
  refine ⟨fun α β ls acts => ?_, by decide⟩
  simp [mkAODict]

/-- C6 counterexample: with L = 0 (an empty landmark list, a non-positive
size) construction succeeds and returns an allocator, refuting the claim
that construction fails whenever L or A is non-positive. -/
theorem aodict_zero_size_constructs :
    mkAODictChecked (some ([] : List Nat)) (some [1, 2, 3]) =
      some { pad_idx := 3, start_idx := 4, end_idx := 5, unk_idx := 6 } := by
  decide

/-- C6 amended: construction fails exactly when the landmark list or the
action list is unknown; present lists of any size (including empty ones,
and sizes are never negative) are accepted and yield the allocator computed
from their lengths. -/
theorem aodict_construction_fails_iff_unknown :
    (∀ (α β : Type) (acts : Option (List β)),
      mkAODictChecked (none : Option (List α)) acts = none) ∧
    (∀ (α β : Type) (ls : Option (List α)),
      mkAODictChecked ls (none : Option (List β)) = none) ∧
    (∀ (α β : Type) (ls : List α) (acts : List β),
      mkAODictChecked (some ls) (some acts) = some (mkAODict ls acts)) := by
  refine ⟨fun α β acts => ?_, fun α β ls => ?_, fun α β ls acts => rfl⟩
  · cases acts <;> rfl
  · cases ls <;> rfl

/-- C4: after each epoch's validation loss, a strict improvement resets the
patience counter and continues; a non-improvement (equality included, since
the comparison is strict) increments it, stopping with a model save and a
test-loss report exactly when the counter reaches the threshold; for losses
[5, 4, 3, 3, 3] with patience 2 the controller stops at the fifth loss and
not within the first four. -/
theorem train_early_stopping :
    (∀ (thr : Nat) (s : ESState) (l : ℚ), improved l s.best = true →
      epochCheck thr s l = EpochStep.cont { best := some l, patience := 0 }) ∧
    (∀ (thr : Nat) (s : ESState) (l : ℚ), improved l s.best = false →
      (s.patience + 1 = thr → epochCheck thr s l = EpochStep.done true true) ∧
      (s.patience + 1 ≠ thr →
        epochCheck thr s l =
          EpochStep.cont { best := s.best, patience := s.patience + 1 })) ∧
    stopsAfter 2 { best := none, patience := 0 } [5, 4, 3, 3, 3] = some 5 ∧
    stopsAfter 2 { best := none, patience := 0 } [5, 4, 3, 3] = none := by
  refine ⟨fun thr s l h => ?_, fun thr s l h => ⟨fun hp => ?_, fun hp => ?_⟩,
    by decide, by decide⟩
  · simp [epochCheck, h]
  · simp [epochCheck, h, hp]
  · simp [epochCheck, h, hp]

/-- Witness for C4: a strict improvement (3 against best 4) continues with
the counter reset, and a non-improvement (3 against best 3) at counter 1
with threshold 2 stops with save and test report. -/
theorem train_early_stopping_witness :
    epochCheck 2 { best := some 4, patience := 0 } 3 =
      EpochStep.cont { best := some 3, patience := 0 } ∧
    epochCheck 2 { best := some 3, patience := 1 } 3 =
      EpochStep.done true true :=
  ⟨train_early_stopping.1 2 { best := some 4, patience := 0 } 3 (by decide),
   (train_early_stopping.2.1 2 { best := some 3, patience := 1 } 3
      (by decide)).1 (by decide)⟩

/-- Concrete instantiation of the external collaborators, used to evaluate
the segmenter on concrete dialogue turns. -/
def demoCollab : Collab Nat Nat Nat :=
  { stepAware := fun a l => 10 * l + a
    getLandmarks2d := fun l => (l + 500, l + 900)
    mkObs := fun l => l + 100
    tokenize := fun _ => [7]
    trgEnd := 1 }

/-- C1 (code-bug evidence): `get_action` maps 'ACTION:FORWARD' to 3 and
'ACTION:TURNRIGHT' to 2, yet the segmenter appends the landmark set and
observation bundle exactly when the action int equals 2 (under a comment
reading "went forward"): a FORWARD turn leaves only its action token in the
window and records no landmark set, while a TURNRIGHT turn appends the
bundle at the new location and records a landmark set. -/
theorem forward_observation_divergence :
    get_action "ACTION:FORWARD" = some 3 ∧
    get_action "ACTION:TURNRIGHT" = some 2 ∧
    (processMsg demoCollab none 16 { loc := 0, memory := [] }
      { Xs := [], tourist_locs := [], landmarks := [], ys := [] }
      { fromTourist := true, text := "ACTION:FORWARD" }).1.memory
      = [Cell.int 3] ∧
    (processMsg demoCollab none 16 { loc := 0, memory := [] }
      { Xs := [], tourist_locs := [], landmarks := [], ys := [] }
      { fromTourist := true, text := "ACTION:FORWARD" }).2.landmarks = [] ∧
    (processMsg demoCollab none 16 { loc := 0, memory := [] }
      { Xs := [], tourist_locs := [], landmarks := [], ys := [] }
      { fromTourist := true, text := "ACTION:TURNRIGHT" }).1.memory
      = [Cell.int 2, Cell.obs 102] ∧
    (processMsg demoCollab none 16 { loc := 0, memory := [] }
      { Xs := [], tourist_locs := [], landmarks := [], ys := [] }
      { fromTourist := true, text := "ACTION:TURNRIGHT" }).2.landmarks
      = [502] := by
  refine ⟨rfl, rfl, by decide, by decide, by decide, by decide⟩

/-- Concrete four-array training dataset in which landmark `100 + 10·k` was
built for trajectory `10·k`, used to exhibit the misalignment. -/
def dataDemo : TrainData Nat Nat Nat Nat :=
  { Xs := [10, 20], tourist_locs := [0, 1], landmarks := [110, 120],
    ys := [5, 6] }

/-- C10: each epoch's shuffle permutes trajectories, tourist locations and
targets with one shared permutation (so re-indexing them jointly keeps them
aligned), while the landmarks array is left untouched by every epoch's
shuffle; concretely, after a swap shuffle the 0-th (trajectory, landmark)
pair is no longer one of the pairs the dataset was built with. -/
theorem epoch_shuffle_landmark_misalignment :
    (∀ (A B C D : Type) (da : A) (db : B) (dd : D) (p : List Nat)
      (d : TrainData A B C D),
      (epochShuffle da db dd p d).landmarks = d.landmarks ∧
      (epochShuffle da db dd p d).Xs = applyPerm da p d.Xs ∧
      (epochShuffle da db dd p d).tourist_locs
        = applyPerm db p d.tourist_locs ∧
      (epochShuffle da db dd p d).ys = applyPerm dd p d.ys) ∧
    (∀ (A B : Type) (da : A) (db : B) (p : List Nat) (a : List A)
      (b : List B), a.length = b.length → (∀ i ∈ p, i < a.length) →
      (applyPerm da p a).zip (applyPerm db p b)
        = applyPerm (da, db) p (a.zip b)) ∧
    (∀ (A B C D : Type) (da : A) (db : B) (dd : D)
      (ps : List (List Nat)) (d : TrainData A B C D),
      (ps.foldl (fun acc p => epochShuffle da db dd p acc) d).landmarks
        = d.landmarks) ∧
    ((epochShuffle 0 0 0 [1, 0] dataDemo).Xs.zip
        (epochShuffle 0 0 0 [1, 0] dataDemo).landmarks).getD 0 (0, 0)
      ∉ dataDemo.Xs.zip dataDemo.landmarks := by
  refine ⟨fun A B C D da db dd p d => ⟨rfl, rfl, rfl, rfl⟩, ?_, ?_, by decide⟩
  · intro A B da db p a b hlen hmem
    unfold applyPerm
    rw [List.zip_map']
    apply List.map_congr_left
    intro i hi
    have h1 : i < a.length := hmem i hi
    have h2 : i < b.length := hlen ▸ h1
    have hz : i < (a.zip b).length := by
      rw [List.length_zip]
      omega
    rw [List.getD_eq_getElem _ _ h1, List.getD_eq_getElem _ _ h2,
      List.getD_eq_getElem _ _ hz, List.getElem_zip]
  · intro A B C D da db dd ps
    induction ps with
    | nil => intro d; rfl
    | cons p ps ih =>
      intro d
      rw [List.foldl_cons]
      exact ih (epochShuffle da db dd p d)

/-- Witness for C10: the shared-permutation zip identity evaluated on the
concrete swapped dataset. -/
theorem epoch_shuffle_landmark_misalignment_witness :
    (applyPerm 0 [1, 0] [10, 20]).zip (applyPerm 0 [1, 0] [110, 120])
      = applyPerm (0, 0) [1, 0] (([10, 20] : List Nat).zip [110, 120]) :=
  epoch_shuffle_landmark_misalignment.2.1 Nat Nat 0 0 [1, 0] [10, 20]
    [110, 120] (by decide) (by decide)

/-- C3: the target-length list returned by `create_batch` is collected by
post-sort loop position, so it equals the pre-sort target-length list
element for element; on a concrete batch whose sort permutation is the swap
it differs from the list obtained by re-indexing the target lengths through
the permutation. -/
theorem create_batch_y_lens_by_position :
    (∀ (Loc Obs : Type) (dfltLoc : Loc) (padSrc padTrg : Nat)
      (Xs : List (List (Cell Obs))) (tourist_locs : List Loc)
      (ys : List (List Nat)), ys.length = Xs.length →
      (create_batch dfltLoc padSrc padTrg Xs tourist_locs ys).sorted_y_lens
        = ys.map List.length) ∧
    ((create_batch 0 14 0
        ([[Cell.int 5], [Cell.int 6, Cell.int 7]] : List (List (Cell Nat)))
        [0, 1] [[9], [8, 9]]).sorted_y_lens = [1, 2] ∧
      sortIndicesDesc
          (([[Cell.int 5], [Cell.int 6, Cell.int 7]] :
            List (List (Cell Nat))).map List.length) = [1, 0] ∧
      ([1, 0] : List Nat).map
          (fun idx => (([[9], [8, 9]] : List (List Nat)).map
            List.length).getD idx 0) = [2, 1] ∧
      ([1, 2] : List Nat) ≠ [2, 1]) := by
  refine ⟨?_, by decide, by decide, by decide, by decide⟩
  intro Loc Obs dfltLoc padSrc padTrg Xs tourist_locs ys hlen
  show (sortIndicesDesc (Xs.map List.length)).enum.map
      (fun p => (ys.map List.length).getD p.1 0) = ys.map List.length
  have h1 : (sortIndicesDesc (Xs.map List.length)).enum.map
      (fun p => (ys.map List.length).getD p.1 0)
      = ((sortIndicesDesc (Xs.map List.length)).enum.map Prod.fst).map
          (fun i => (ys.map List.length).getD i 0) := by
    rw [List.map_map]
    rfl
  rw [h1, List.enum_map_fst, sortIndicesDesc_length, List.length_map, ← hlen]
  have h2 : ys.length = (ys.map List.length).length := (List.length_map _ _).symm
  rw [h2, range_map_getD]

/-- Witness for C3: the returned target-length list of a concrete batch
equals the pre-sort target-length list. -/
theorem create_batch_y_lens_by_position_witness :
    (create_batch 0 14 0 ([[Cell.int 4]] : List (List (Cell Nat))) [0]
      [[7, 8]]).sorted_y_lens = ([[7, 8]] : List (List Nat)).map List.length :=
  create_batch_y_lens_by_position.1 Nat Nat 0 14 0 [[Cell.int 4]] [0]
    [[7, 8]] (by decide)

/-- C2 counterexample: with the allocator built from L = 11 landmarks and
A = 3 actions (pad index 14) passed as the source pad, cell (1, 1) of the
returned source grid — an unused cell, past row 1's source length 1 — holds
the int 0 and not the pad index. -/
theorem create_batch_unused_cell_not_pad :
    ((create_batch 0 (mkAODict (List.range 11) (List.range 3)).pad_idx 0
        ([[Cell.int 1, Cell.int 2], [Cell.int 3]] : List (List (Cell Nat)))
        [0, 1] [[4], [5]]).sorted_X_batch.getD 1 []).getD 1 (Cell.obs 0)
      = Cell.int 0 ∧
    (Cell.int 0 : Cell Nat)
      ≠ Cell.int (mkAODict (List.range 11) (List.range 3)).pad_idx := by
  exact ⟨by decide, by decide⟩

/-- C2 amended: in the source grid returned by `create_batch`, row `i` is
the whole pre-sort row of example `perm_i`: cells before that example's
source length hold its elements unchanged (native `Cell` values), and every
unused cell past it holds the int literal 0 that pre-fills `X_batch` — the
pad-filled initialization of the sorted grid is wholly overwritten by the
row copies, so unused cells do not hold the pad index. -/
theorem create_batch_source_grid_cells
    (Loc Obs : Type) (dfltLoc : Loc) (padSrc padTrg : Nat)
    (Xs : List (List (Cell Obs))) (tourist_locs : List Loc)
    (ys : List (List Nat)) (i j : Nat) (hi : i < Xs.length)
    (hj : j < maxList (Xs.map List.length)) :
    ((create_batch dfltLoc padSrc padTrg Xs tourist_locs
        ys).sorted_X_batch.getD i []).getD j (Cell.int padSrc)
      = if j < (Xs.getD ((sortIndicesDesc (Xs.map List.length)).getD i 0)
            []).length
        then (Xs.getD ((sortIndicesDesc (Xs.map List.length)).getD i 0)
            []).getD j (Cell.int 0)
        else Cell.int 0 := by
  have hip : i < (sortIndicesDesc (Xs.map List.length)).length := by
    rw [sortIndicesDesc_length, List.length_map]
    exact hi
  have hrow : (create_batch dfltLoc padSrc padTrg Xs tourist_locs
      ys).sorted_X_batch.getD i []
      = (X_batchOf (maxList (Xs.map List.length)) Xs).getD
          ((sortIndicesDesc (Xs.map List.length)).getD i 0)
          (List.replicate (maxList (Xs.map List.length))
            (Cell.int padSrc)) := by
    show (applyPerm (List.replicate (maxList (Xs.map List.length))
        (Cell.int padSrc)) (sortIndicesDesc (Xs.map List.length))
        (X_batchOf (maxList (Xs.map List.length)) Xs)).getD i [] = _
    unfold applyPerm
    rw [getD_map_of_lt _ _ _ _ 0 hip]
  have hidx : (sortIndicesDesc (Xs.map List.length)).getD i 0 < Xs.length := by
    have hm : (sortIndicesDesc (Xs.map List.length)).getD i 0
        ∈ sortIndicesDesc (Xs.map List.length) := by
      rw [List.getD_eq_getElem _ _ hip]
      exact List.getElem_mem hip
    have := sortIndicesDesc_mem_lt (Xs.map List.length) hm
    rwa [List.length_map] at this
  rw [hrow]
  unfold X_batchOf
  rw [getD_map_of_lt _ _ _ _ [] hidx]
  unfold srcRow
  rw [getD_map_of_lt _ _ _ _ 0 (by simpa using hj), List.getD_eq_getElem _ _
    (by simpa using hj), List.getElem_range]

/-- Witness for C2's amended theorem: cell (1, 1) of the concrete batch is
past row 1's source length, hence the int 0. -/
theorem create_batch_source_grid_cells_witness :
    ((create_batch 0 14 0
        ([[Cell.int 1, Cell.int 2], [Cell.int 3]] : List (List (Cell Nat)))
        [0, 1] [[4], [5]]).sorted_X_batch.getD 1 []).getD 1 (Cell.int 14)
      = if 1 < (([[Cell.int 1, Cell.int 2], [Cell.int 3]] :
            List (List (Cell Nat))).getD
            ((sortIndicesDesc (([[Cell.int 1, Cell.int 2], [Cell.int 3]] :
              List (List (Cell Nat))).map List.length)).getD 1 0) []).length
        then (([[Cell.int 1, Cell.int 2], [Cell.int 3]] :
            List (List (Cell Nat))).getD
            ((sortIndicesDesc (([[Cell.int 1, Cell.int 2], [Cell.int 3]] :
              List (List (Cell Nat))).map List.length)).getD 1 0)
            []).getD 1 (Cell.int 0)
        else Cell.int 0 :=
  create_batch_source_grid_cells Nat Nat 0 14 0
    [[Cell.int 1, Cell.int 2], [Cell.int 3]] [0, 1] [[4], [5]] 1 1
    (by decide) (by decide)

/-- C8: the sort permutation of `create_batch` is a permutation of the row
indices [0, N) (no example dropped or duplicated); the returned source
grid, target grid and location array are the pre-sort structures re-indexed
through that permutation; the returned mask equals the pre-sort mask
re-indexed through the same permutation; and the returned source-length
list is non-increasing. -/
theorem create_batch_sort_invariants
    (Loc Obs : Type) (dfltLoc : Loc) (padSrc padTrg : Nat)
    (Xs : List (List (Cell Obs))) (tourist_locs : List Loc)
    (ys : List (List Nat)) (_hN : 1 ≤ Xs.length) :
    (sortIndicesDesc (Xs.map List.length)).Perm (List.range Xs.length) ∧
    (create_batch dfltLoc padSrc padTrg Xs tourist_locs ys).sorted_X_batch
      = applyPerm (List.replicate (maxList (Xs.map List.length))
          (Cell.int padSrc)) (sortIndicesDesc (Xs.map List.length))
          (X_batchOf (maxList (Xs.map List.length)) Xs) ∧
    (create_batch dfltLoc padSrc padTrg Xs tourist_locs ys).sorted_y_batch
      = applyPerm (List.replicate (maxList (ys.map List.length)) 0)
          (sortIndicesDesc (Xs.map List.length))
          (y_batchOf (maxList (ys.map List.length)) padTrg ys) ∧
    (create_batch dfltLoc padSrc padTrg Xs tourist_locs
        ys).sorted_tourist_loc_batch
      = applyPerm dfltLoc (sortIndicesDesc (Xs.map List.length))
          tourist_locs ∧
    (create_batch dfltLoc padSrc padTrg Xs tourist_locs ys).sorted_mask
      = applyPerm (maskRow (maxList (Xs.map List.length)) 0)
          (sortIndicesDesc (Xs.map List.length))
          (maskOf (maxList (Xs.map List.length)) Xs) ∧
    (create_batch dfltLoc padSrc padTrg Xs tourist_locs
        ys).x_lens.Sorted (fun a b => b ≤ a) := by
  refine ⟨?_, rfl, rfl, rfl, ?_, ?_⟩
  · have h := sortIndicesDesc_perm (Xs.map List.length)
    rwa [List.length_map] at h
  · show ((sortIndicesDesc (Xs.map List.length)).map
        (fun idx => (Xs.map List.length).getD idx 0)).map
        (fun len => maskRow (maxList (Xs.map List.length)) len) = _
    unfold applyPerm maskOf
    rw [List.map_map]
    apply List.map_congr_left
    intro idx hidx
    have hlt : idx < Xs.length := by
      have := sortIndicesDesc_mem_lt (Xs.map List.length) hidx
      rwa [List.length_map] at this
    show maskRow (maxList (Xs.map List.length))
        ((Xs.map List.length).getD idx 0) = _
    rw [getD_map_of_lt _ _ _ _ [] hlt,
      getD_map_of_lt (fun seq => maskRow (maxList (Xs.map List.length))
        seq.length) _ _ _ [] hlt]
  · haveI hTot : IsTotal Nat (fun a b => b ≤ a) := ⟨fun a b => le_total b a⟩
    haveI hTr : IsTrans Nat (fun a b => b ≤ a) :=
      ⟨fun a b c h1 h2 => le_trans h2 h1⟩
    exact List.sorted_insertionSort _ _

/-- Witness for C8: the sort permutation of a concrete two-row batch is a
permutation of {0, 1}. -/
theorem create_batch_sort_invariants_witness :
    (sortIndicesDesc (([[Cell.int 1], [Cell.int 2, Cell.int 3]] :
      List (List (Cell Nat))).map List.length)).Perm (List.range 2) :=
  (create_batch_sort_invariants Nat Nat 0 14 0
    [[Cell.int 1], [Cell.int 2, Cell.int 3]] [0, 1] [[4], [5]]
    (by decide)).1

/-- C7: a tourist turn not recognized as a command emits exactly one
example: the observation bundle at the *current* location (no movement) is
appended to the window, `Xs` receives the window's contents plus the end
marker, the recorded location is the coordinate the landmark lookup returns
for the current location, the target is the text encoded with the forced
trailing end token, and the window is cleared; in particular a dialogue
with exactly one tourist utterance and zero preceding actions yields
exactly one example whose trajectory is the current-location bundle
followed by the end marker. -/
theorem free_text_emission {Loc Lmk Obs : Type} (C : Collab Loc Lmk Obs)
    (cap : Option Nat) (endIdx : Nat) (st : SegState Loc Obs)
    (acc : SegAcc Loc Lmk Obs) (msg : Msg)
    (hmsg : msg.fromTourist = true) (hact : get_action msg.text = none) :
    processMsg C cap endIdx st acc msg =
      ({ loc := st.loc, memory := [] },
       { Xs := acc.Xs ++ [dequeAppend cap st.memory
            (Cell.obs (C.mkObs st.loc)) ++ [Cell.int endIdx]]
         tourist_locs := acc.tourist_locs ++ [(C.getLandmarks2d st.loc).2]
         landmarks := acc.landmarks ++ [(C.getLandmarks2d st.loc).1]
         ys := acc.ys ++ [C.tokenize msg.text ++ [C.trgEnd]] }) ∧
    (processMsg C cap endIdx st acc msg).2.Xs.length = acc.Xs.length + 1 ∧
    ∀ startLoc : Loc,
      processDialogue C none endIdx startLoc [msg]
          { Xs := [], tourist_locs := [], landmarks := [], ys := [] }
        = ({ loc := startLoc, memory := [] },
           { Xs := [[Cell.obs (C.mkObs startLoc), Cell.int endIdx]]
             tourist_locs := [(C.getLandmarks2d startLoc).2]
             landmarks := [(C.getLandmarks2d startLoc).1]
             ys := [C.tokenize msg.text ++ [C.trgEnd]] }) := by
  have hstep : processMsg C cap endIdx st acc msg =
      ({ loc := st.loc, memory := [] },
       { Xs := acc.Xs ++ [dequeAppend cap st.memory
            (Cell.obs (C.mkObs st.loc)) ++ [Cell.int endIdx]]
         tourist_locs := acc.tourist_locs ++ [(C.getLandmarks2d st.loc).2]
         landmarks := acc.landmarks ++ [(C.getLandmarks2d st.loc).1]
         ys := acc.ys ++ [C.tokenize msg.text ++ [C.trgEnd]] }) := by
    simp [processMsg, hmsg, hact, Collab.encode]
  refine ⟨hstep, ?_, ?_⟩
  · rw [hstep]
    simp
  · intro startLoc
    show processMsg C none endIdx { loc := startLoc, memory := [] }
        { Xs := [], tourist_locs := [], landmarks := [], ys := [] } msg = _
    simp [processMsg, hmsg, hact, Collab.encode, dequeAppend]

/-- Witness for C7: the one-utterance dialogue "hello" from location 7
under the concrete collaborators emits exactly the bundle-then-end-marker
trajectory with the encoded target. -/
theorem free_text_emission_witness :
    processDialogue demoCollab none 16 7
        [{ fromTourist := true, text := "hello" }]
        { Xs := [], tourist_locs := [], landmarks := [], ys := [] }
      = ({ loc := 7, memory := [] },
         { Xs := [[Cell.obs 107, Cell.int 16]]
           tourist_locs := [907]
           landmarks := [507]
           ys := [[7, 1]] }) := by
  have h := (free_text_emission demoCollab none 16
    { loc := 7, memory := [] }
    { Xs := [], tourist_locs := [], landmarks := [], ys := [] }
    { fromTourist := true, text := "hello" } rfl (by decide)).2.2 7
  rw [h]
  simp [demoCollab]

end TTW
